import Mathlib

/-!
Shallow embedding of the ranking-grid frontend of the Tein_Brouwer_System
repository: the form-submission handlers, CSRF-token acquisition, history
effects and the result renderer of
frontend/src/components/LocalRankingGrid.js, and the authentication /
logout state machine of frontend/src/App.js.

Numeric form values are modelled as rationals: the JavaScript code performs
no floating-point arithmetic on them, only parsing and pass-through, so the
claims under study are independent of float rounding. JSON keys holding
the JavaScript value undefined (dropped on serialization) and null are both
modelled with Option. Network activity is modelled as a list of effects
emitted by each handler, with the outcome of each awaited request supplied
as an explicit environment argument.
-/

namespace RankingFrontend

/-- A numeric form field as held in React state: either the empty string
(the initial value, also produced when handleInputChange fails to parse a
number input) or a number. -/
inductive JsNum where
  | empty : JsNum
  | num : ℚ → JsNum
deriving DecidableEq

/-- JavaScript truthiness of a numeric form field: the empty string and the
number 0 are falsy, every other number is truthy. -/
def JsNum.truthy : JsNum → Bool
  | .empty => false
  | .num x => x != 0

/-- JavaScript parseFloat applied to a numeric form field; none models NaN
(the result of parsing the empty string), which the handlers never reach
because validation rejects empty fields first. -/
def jsParseFloat : JsNum → Option ℚ
  | .empty => none
  | .num x => some x

/-- Models the JavaScript expression s OR-ELSE undefined for a string field:
the empty string is the only falsy string, and a key whose value is
undefined is omitted from the serialized JSON body. -/
def stringOrUndefined (s : String) : Option String :=
  if s = "" then none else some s

/-- The formData React state of LocalRankingGrid (lines 42-51). -/
structure FormData where
  businessName : String
  businessLat : JsNum
  businessLng : JsNum
  gridSize : ℤ
  radiusKm : ℚ
  languageCode : String
  device : String
  targetDomain : String
deriving DecidableEq

/-- A submission passes the field validation at the top of both handlers
(lines 104 and 213): business name nonempty and both coordinates truthy. -/
def FormData.validated (form : FormData) : Prop :=
  form.businessName ≠ "" ∧ form.businessLat.truthy = true ∧
    form.businessLng.truthy = true

instance (form : FormData) : Decidable form.validated := by
  unfold FormData.validated
  infer_instance

/-- Serialized body of POST /api/ranking/quick-check/ (lines 176-181).
target_domain is none exactly when the key is omitted from the body. -/
structure QuickCheckBody where
  business_name : String
  business_lat : Option ℚ
  business_lng : Option ℚ
  target_domain : Option String
deriving DecidableEq

/-- Serialized body of POST /api/ranking/grid-check/ (lines 231-240). -/
structure GridCheckBody where
  business_name : String
  business_lat : Option ℚ
  business_lng : Option ℚ
  grid_size : ℤ
  radius_km : ℚ
  language_code : String
  device : String
  target_domain : Option String
deriving DecidableEq

/-- The effective configuration of an outgoing axios request: credentials
flag and the headers relevant to the claims. -/
structure RequestConfig where
  withCredentials : Bool
  contentType : Option String
  xCsrfToken : Option String
  xRequestedWith : Option String
deriving DecidableEq

/-- The fields of a RankResult payload consumed by the rank-grid section of
renderResults (lines 258-325). -/
structure RankCell where
  task_id : String
  rank : Option ℤ
  status : String
deriving DecidableEq

structure GridParameters where
  size : ℤ
  radius_km : ℚ
deriving DecidableEq

structure Summary where
  completed_count : ℤ
  failed_count : ℤ
  pending_count : ℤ
deriving DecidableEq

structure RankResult where
  business_name : String
  grid_parameters : Option GridParameters
  rank_map : Option (List RankCell)
  summary : Option Summary
deriving DecidableEq

/-- One network or browser side effect performed by the component code. -/
inductive Effect where
  | getCsrfToken
  | postQuickCheck (body : QuickCheckBody) (config : RequestConfig)
  | postGridCheck (body : GridCheckBody) (config : RequestConfig)
  | getHistory (business_name : Option String)
  | navigate (path : String)
  | getCheckAuth
  | postLogout
  | clearLocalStorage
  | clearSessionStorage
  | startLogoutTimer (ms : Nat)
deriving DecidableEq

/-- True on the quick-check POST effect. -/
def Effect.isQuickPost : Effect → Bool
  | .postQuickCheck _ _ => true
  | _ => false

/-- True on the grid-check POST effect. -/
def Effect.isGridPost : Effect → Bool
  | .postGridCheck _ _ => true
  | _ => false

/-! ## Result Presenter: the rank-grid section of renderResults -/

/-- JavaScript truthiness of the rank entry (line 313 uses cell.rank in a
conditional): null and 0 are falsy. -/
def jsTruthyRank : Option ℤ → Bool
  | none => false
  | some r => r != 0

/-- One rendered rank-grid cell (lines 311-322): the rank text is
cell.rank ?? the em-dash placeholder, the status text is the raw status
string, and the background is chosen by the truthiness of rank and, failing
that, whether the status is failed. -/
structure RenderedCell where
  key : String
  rankText : String
  statusText : String
  background : String
deriving DecidableEq

def renderCell (cell : RankCell) : RenderedCell :=
  { key := cell.task_id
    rankText :=
      match cell.rank with
      | some r => toString r
      | none => "—"
    statusText := cell.status
    background :=
      if jsTruthyRank cell.rank then "#eef2ff"
      else if cell.status = "failed" then "#fee2e2"
      else "#f9fafb" }

/-- The rendered rank grid: the CSS column count from
gridTemplateColumns: repeat(grid_parameters?.size OR-ELSE 3, 1fr) and the
list of rendered cells. -/
structure RankGridView where
  columns : ℤ
  cells : List RenderedCell
deriving DecidableEq

/-- The CSS column count of the grid (line 307): grid_parameters?.size with
JavaScript OR-ELSE fallback to 3 when grid_parameters is absent or its size
is falsy. -/
def jsGridColumns : Option GridParameters → ℤ
  | none => 3
  | some gp => if gp.size != 0 then gp.size else 3

/-- The rank-map section of renderResults (lines 302-325): rendered only
when rank_map is present and nonempty; one cell is rendered per rank_map
entry by mapping over the array, and the column count comes from
grid_parameters. -/
def renderRankGrid (r : RankResult) : Option RankGridView :=
  match r.rank_map with
  | none => none
  | some rm =>
      if 0 < rm.length then
        some { columns := jsGridColumns r.grid_parameters
               cells := rm.map renderCell }
      else none

/-! ## Request Composer: the submission handlers -/

/-- The React state of LocalRankingGrid relevant to the handlers: the cached
CSRF token, the loading flag, the held results and the error message. -/
structure ComponentState where
  csrfToken : Option String
  loading : Bool
  results : Option RankResult
  error : String
deriving DecidableEq

/-- The axios module-level default common headers that the component
mutates; only the X-CSRFToken entry matters here. -/
structure AxiosDefaults where
  xCsrfToken : Option String
deriving DecidableEq

/-- Outcome of the awaited GET /api/get-csrf-token/ performed on demand
inside handleQuickCheck (lines 141-158): a token in the response body, a
response without a token, or a thrown transport error. -/
inductive TokenFetchOutcome where
  | ok (token : String)
  | missingToken
  | transportError
deriving DecidableEq

/-- Outcome of an awaited ranking POST: response data, or a thrown error
whose user-facing message has already been resolved from err.response. -/
inductive PostOutcome where
  | ok (data : RankResult)
  | failed (message : String)
deriving DecidableEq

/-- What a handler invocation leaves behind: the component state after all
setState calls, the axios defaults, and the requests issued in order. -/
structure HandlerResult where
  state : ComponentState
  axios : AxiosDefaults
  effects : List Effect
deriving DecidableEq

def validationMessage : String := "Please fill in all required fields"

def loginMessage : String := "Please log in first"

def tokenFailureMessage : String :=
  "Failed to get security token. Please try refreshing the page."

/-- Body of the quick-check POST (lines 176-181): name verbatim, both
coordinates through parseFloat, and target_domain OR-ELSE undefined so the
key is omitted when the field is blank. -/
def quickCheckBody (form : FormData) : QuickCheckBody :=
  { business_name := form.businessName
    business_lat := jsParseFloat form.businessLat
    business_lng := jsParseFloat form.businessLng
    target_domain := stringOrUndefined form.targetDomain }

/-- Request config of the quick-check POST (lines 161-168): credentials,
JSON content type, X-CSRFToken from the render-time snapshot falling back
to the axios default header, and X-Requested-With. -/
def quickCheckConfig (snapshot : Option String) (ax : AxiosDefaults) :
    RequestConfig :=
  { withCredentials := true
    contentType := some "application/json"
    xCsrfToken :=
      match snapshot with
      | some t => some t
      | none => ax.xCsrfToken
    xRequestedWith := some "XMLHttpRequest" }

/-- The tail of handleQuickCheck from line 174: issue the POST after any
effects already performed, then either store the results or set the error
message built from the caught error; the finally block resets loading. -/
def quickCheckMainPost (form : FormData) (snapshot : Option String)
    (st : ComponentState) (ax : AxiosDefaults) (pre : List Effect)
    (postOutcome : PostOutcome) : HandlerResult :=
  let eff := pre ++ [Effect.postQuickCheck (quickCheckBody form) (quickCheckConfig snapshot ax)]
  match postOutcome with
  | .ok data =>
      { state := { st with results := some data, loading := false }
        axios := ax
        effects := eff }
  | .failed msg =>
      { state := { st with error := "Error: " ++ msg, loading := false }
        axios := ax
        effects := eff }

/-- Shallow embedding of handleQuickCheck (lines 101-208). The csrfToken
read inside the handler is the render-time React snapshot (st.csrfToken);
setCsrfToken during the handler updates the state for later renders but not
that snapshot, while the axios default-header mutation takes effect
immediately. Early returns inside the try block still run the finally
block, so loading is reset on every path after validation. -/
def handleQuickCheck (form : FormData) (isAuthenticated : Bool)
    (st : ComponentState) (ax : AxiosDefaults)
    (tokenOutcome : TokenFetchOutcome) (postOutcome : PostOutcome) :
    HandlerResult :=
  if form.businessName == "" || !form.businessLat.truthy || !form.businessLng.truthy then
    { state := { st with error := validationMessage }, axios := ax, effects := [] }
  else
    let st1 : ComponentState := { st with loading := true, error := "", results := none }
    if !isAuthenticated then
      { state := { st1 with error := loginMessage, loading := false }
        axios := ax
        effects := [Effect.navigate "/login"] }
    else
      match st.csrfToken with
      | some _ => quickCheckMainPost form st.csrfToken st1 ax [] postOutcome
      | none =>
          match tokenOutcome with
          | .ok t =>
              quickCheckMainPost form st.csrfToken
                { st1 with csrfToken := some t }
                { ax with xCsrfToken := some t }
                [Effect.getCsrfToken] postOutcome
          | .missingToken =>
              { state := { st1 with error := tokenFailureMessage, loading := false }
                axios := ax
                effects := [Effect.getCsrfToken] }
          | .transportError =>
              { state := { st1 with error := tokenFailureMessage, loading := false }
                axios := ax
                effects := [Effect.getCsrfToken] }

/-- Body of the grid-check POST (lines 231-240). -/
def gridCheckBody (form : FormData) : GridCheckBody :=
  { business_name := form.businessName
    business_lat := jsParseFloat form.businessLat
    business_lng := jsParseFloat form.businessLng
    grid_size := form.gridSize
    radius_km := form.radiusKm
    language_code := form.languageCode
    device := form.device
    target_domain := stringOrUndefined form.targetDomain }

/-- Request config of the grid-check POST (lines 241-246): only
withCredentials and Content-Type appear explicitly in the source; the
effective X-CSRFToken header is whatever sits in the axios default common
headers, set only by an earlier successful token fetch, otherwise absent. -/
def gridCheckConfig (ax : AxiosDefaults) : RequestConfig :=
  { withCredentials := true
    contentType := some "application/json"
    xCsrfToken := ax.xCsrfToken
    xRequestedWith := none }

/-- Shallow embedding of handleAdvancedCheck (lines 210-256). Unlike the
quick handler it performs no on-demand CSRF-token fetch. -/
def handleAdvancedCheck (form : FormData) (isAuthenticated : Bool)
    (st : ComponentState) (ax : AxiosDefaults) (postOutcome : PostOutcome) :
    HandlerResult :=
  if form.businessName == "" || !form.businessLat.truthy || !form.businessLng.truthy then
    { state := { st with error := validationMessage }, axios := ax, effects := [] }
  else
    let st1 : ComponentState := { st with loading := true, error := "", results := none }
    if !isAuthenticated then
      { state := { st1 with error := loginMessage, loading := false }
        axios := ax
        effects := [Effect.navigate "/login"] }
    else
      let eff := [Effect.postGridCheck (gridCheckBody form) (gridCheckConfig ax)]
      match postOutcome with
      | .ok data =>
          { state := { st1 with results := some data, loading := false }
            axios := ax
            effects := eff }
      | .failed msg =>
          { state := { st1 with error := msg, loading := false }
            axios := ax
            effects := eff }

/-! ## History effects -/

/-- The mount-scoped history effect fetchHistory (lines 68-82), dependency
array [isAuthenticated]: skipped when unauthenticated; the business_name
query parameter is attached only when the name is truthy. -/
def fetchHistory (isAuthenticated : Bool) (businessName : String) :
    List Effect :=
  if !isAuthenticated then []
  else [Effect.getHistory (if businessName == "" then none else some businessName)]

/-- The name-scoped history effect fetchHistoryByName (lines 85-99),
dependency array [isAuthenticated, businessName]: skipped when
unauthenticated or when the name is empty. -/
def fetchHistoryByName (isAuthenticated : Bool) (businessName : String) :
    List Effect :=
  if !isAuthenticated || businessName == "" then []
  else [Effect.getHistory (some businessName)]

/-- React dependency semantics for the two history effects: after a render,
each useEffect body re-runs exactly when its dependency array differs from
the previous render. -/
def historyEffectsAfterRender (prevAuth : Bool) (prevName : String)
    (curAuth : Bool) (curName : String) : List Effect :=
  (if prevAuth != curAuth then fetchHistory curAuth curName else []) ++
    (if prevAuth != curAuth || prevName != curName then
      fetchHistoryByName curAuth curName
    else [])

/-! ## App.js: authentication state and logout quiescence -/

/-- The top-level App state (App.js lines 18-21). -/
structure AppState where
  isAuthenticated : Bool
  user : Option String
  loading : Bool
  logoutInProgress : Bool
deriving DecidableEq

/-- Outcome of the awaited GET /api/accounts/check-auth/: an authenticated
payload with a user, an unauthenticated payload, or a thrown error. -/
inductive AuthCheckOutcome where
  | authenticated (user : String)
  | unauthenticated
  | requestError
deriving DecidableEq

/-- checkAuthStatus (App.js lines 27-58): while logoutInProgress is set it
returns before calling the endpoint and forces the unauthenticated state;
otherwise it calls the endpoint and applies the outcome. -/
def checkAuthStatus (st : AppState) (outcome : AuthCheckOutcome) :
    AppState × List Effect :=
  if st.logoutInProgress then
    ({ st with isAuthenticated := false, user := none, loading := false }, [])
  else
    match outcome with
    | .authenticated u =>
        ({ st with isAuthenticated := true, user := some u, loading := false },
          [Effect.getCheckAuth])
    | .unauthenticated =>
        ({ st with isAuthenticated := false, user := none, loading := false },
          [Effect.getCheckAuth])
    | .requestError =>
        ({ st with isAuthenticated := false, user := none, loading := false },
          [Effect.getCheckAuth])

/-- handleLogout (App.js lines 65-93): sets the logout-in-progress flag and
clears the auth state immediately, posts to the logout endpoint (failures
are swallowed), clears both storages, and starts the 1000 ms timer whose
callback clears the flag. -/
def handleLogout (st : AppState) : AppState × List Effect :=
  ({ st with logoutInProgress := true, isAuthenticated := false, user := none },
    [Effect.postLogout, Effect.clearLocalStorage, Effect.clearSessionStorage,
      Effect.startLogoutTimer 1000])

/-- The setTimeout callback scheduled by handleLogout (App.js lines 89-92):
after 1000 ms it clears the logout-in-progress flag, ending the quiescence
window. -/
def logoutTimerFires (st : AppState) : AppState :=
  { st with logoutInProgress := false }

/-! ## Concrete fixtures -/

def cellRanked : RankCell := { task_id := "a", rank := some 1, status := "completed" }

def cellPending : RankCell := { task_id := "b", rank := none, status := "pending" }

def cellFailed : RankCell := { task_id := "c", rank := none, status := "failed" }

/-- A rank map with three entries, deliberately fewer than size squared. -/
def mismatchCells : List RankCell := [cellRanked, cellPending, cellFailed]

/-- A result with grid_parameters.size = 4 but only three rank_map entries. -/
def mismatchedResult : RankResult :=
  { business_name := "Pizza Place"
    grid_parameters := some { size := 4, radius_km := 5 }
    rank_map := some mismatchCells
    summary := none }

/-- A validated form state in the spirit of the spec example (coordinates
taken as whole degrees so that concrete witnesses evaluate by kernel
reduction; none of the claims depends on the fractional digits). -/
def pizzaForm : FormData :=
  { businessName := "Pizza Place"
    businessLat := .num 40
    businessLng := .num (-73)
    gridSize := 4
    radiusKm := 5
    languageCode := "en"
    device := "desktop"
    targetDomain := "" }

/-- Fresh component state: no cached token, no results, no error. -/
def freshState : ComponentState :=
  { csrfToken := none, loading := false, results := none, error := "" }

/-- Axios defaults with no cached X-CSRFToken. -/
def noDefaults : AxiosDefaults := { xCsrfToken := none }

/-- A minimal successful payload. -/
def sampleResult : RankResult :=
  { business_name := "Pizza Place", grid_parameters := none
    rank_map := none, summary := none }

/-! ## Theorems -/

/-- C1, counterexample: for the advanced-style result mismatchedResult with
grid_parameters.size = 4 but a rank_map of only three entries, the rendered
rank grid contains 3 cells, not the 16 = size squared the claim asserts. -/
theorem c1_sixteen_cells_counterexample :
    Option.map (fun v => v.cells.length) (renderRankGrid mismatchedResult) = some 3 ∧
      Option.map (fun v => v.cells.length) (renderRankGrid mismatchedResult) ≠ some 16 := by
  constructor
  · rfl
  · decide

/-- C1, amended: for any result whose rank_map is present and nonempty, the
rendered rank grid contains exactly one cell per rank_map entry, so its cell
count is the rank_map length rather than grid_parameters.size squared; when
grid_parameters.size = 4 only the CSS column count is 4. Rendering is a
total function, so a mismatch between the two never crashes it. -/
theorem c1_cell_count_is_rank_map_length (r : RankResult) (rm : List RankCell)
    (hrm : r.rank_map = some rm) (hne : 0 < rm.length) :
    Option.map (fun v => v.cells.length) (renderRankGrid r) = some rm.length ∧
      (∀ gp, r.grid_parameters = some gp → gp.size = 4 →
        Option.map (fun v => v.columns) (renderRankGrid r) = some 4) := by
  constructor
  · simp [renderRankGrid, hrm, hne]
  · intro gp hgp h4
    simp [renderRankGrid, hrm, hne, jsGridColumns, hgp, h4]

/-- C1, witness: the amended theorem applied to the concrete mismatched
result: 3 cells rendered, 4 CSS columns. -/
theorem c1_cell_count_witness :
    Option.map (fun v => v.cells.length) (renderRankGrid mismatchedResult) =
        some mismatchCells.length ∧
      (∀ gp, mismatchedResult.grid_parameters = some gp → gp.size = 4 →
        Option.map (fun v => v.columns) (renderRankGrid mismatchedResult) = some 4) :=
  c1_cell_count_is_rank_map_length mismatchedResult mismatchCells rfl (by decide)

/-- C9: every rendered cell shows the raw status string, shows the rank when
present and the em-dash placeholder when absent; in particular a pending
cell with no rank renders the placeholder and the status text pending. -/
theorem c9_cell_rank_and_status (cell : RankCell) :
    (renderCell cell).statusText = cell.status ∧
      (cell.rank = none → (renderCell cell).rankText = "—") ∧
      (∀ k, cell.rank = some k → (renderCell cell).rankText = toString k) ∧
      (cell.status = "pending" → cell.rank = none →
        (renderCell cell).rankText = "—" ∧ (renderCell cell).statusText = "pending") := by
  refine ⟨rfl, ?_, ?_, ?_⟩
  · intro h
    simp [renderCell, h]
  · intro k h
    simp [renderCell, h]
  · intro hs h
    simp [renderCell, h, hs]

/-- C9, witness: the theorem applied to the concrete pending cell of the
fixtures, which renders the placeholder and the pending status. -/
theorem c9_pending_cell_witness :
    (renderCell cellPending).rankText = "—" ∧
      (renderCell cellPending).statusText = "pending" :=
  (c9_cell_rank_and_status cellPending).2.2.2 rfl rfl

/-- A validated form fails the falsy guard at the top of both handlers. -/
theorem validated_guard_false (form : FormData) (h : form.validated) :
    (form.businessName == "" || !form.businessLat.truthy ||
      !form.businessLng.truthy) = false := by
  obtain ⟨h1, h2, h3⟩ := h
  simp [h1, h2, h3]

/-- C2: submitting either form with an empty business name, latitude or
longitude issues no network request at all and sets the validation
message. -/
theorem c2_validation_blocks_network (form : FormData) (isAuth : Bool)
    (st : ComponentState) (ax : AxiosDefaults) (tk : TokenFetchOutcome)
    (po pa : PostOutcome)
    (h : form.businessName = "" ∨ form.businessLat = JsNum.empty ∨
      form.businessLng = JsNum.empty) :
    (handleQuickCheck form isAuth st ax tk po).effects = [] ∧
      (handleQuickCheck form isAuth st ax tk po).state.error = validationMessage ∧
      (handleAdvancedCheck form isAuth st ax pa).effects = [] ∧
      (handleAdvancedCheck form isAuth st ax pa).state.error = validationMessage := by
  have hc : (form.businessName == "" || !form.businessLat.truthy ||
      !form.businessLng.truthy) = true := by
    rcases h with h | h | h <;> simp [h, JsNum.truthy]
  refine ⟨?_, ?_, ?_, ?_⟩ <;> simp [handleQuickCheck, handleAdvancedCheck, hc]

/-- A form with an empty latitude field, used as the C2 witness input. -/
def emptyLatForm : FormData := { pizzaForm with businessLat := JsNum.empty }

/-- C2, witness: the theorem applied to the concrete form with an empty
latitude field. -/
theorem c2_validation_witness :
    emptyLatForm.businessLat = JsNum.empty ∧
      ((handleQuickCheck emptyLatForm true freshState noDefaults
          TokenFetchOutcome.transportError (PostOutcome.ok sampleResult)).effects = [] ∧
        (handleQuickCheck emptyLatForm true freshState noDefaults
          TokenFetchOutcome.transportError (PostOutcome.ok sampleResult)).state.error =
            validationMessage ∧
        (handleAdvancedCheck emptyLatForm true freshState noDefaults
          (PostOutcome.ok sampleResult)).effects = [] ∧
        (handleAdvancedCheck emptyLatForm true freshState noDefaults
          (PostOutcome.ok sampleResult)).state.error = validationMessage) :=
  ⟨rfl, c2_validation_blocks_network emptyLatForm true freshState noDefaults
    TokenFetchOutcome.transportError (PostOutcome.ok sampleResult)
    (PostOutcome.ok sampleResult) (Or.inr (Or.inl rfl))⟩

/-- C7, counterexample: a validated quick-check submission while not
authenticated sets the inline error message Please log in first, refuting
the clause that the user is redirected rather than shown an inline error
(the redirect does also happen, see the amended theorem). -/
theorem c7_inline_error_counterexample :
    (handleQuickCheck pizzaForm false freshState noDefaults
        TokenFetchOutcome.transportError (PostOutcome.failed "x")).state.error =
      loginMessage ∧
      (handleQuickCheck pizzaForm false freshState noDefaults
        TokenFetchOutcome.transportError (PostOutcome.failed "x")).state.error ≠ "" := by
  constructor
  · rfl
  · decide

/-- C7, amended: a validated submission while not authenticated issues no
ranking POST, navigates to the login view, and also sets the inline message
Please log in first; the loading flag is reset by the finally block. -/
theorem c7_unauthenticated_redirect (form : FormData) (st : ComponentState)
    (ax : AxiosDefaults) (tk : TokenFetchOutcome) (po pa : PostOutcome)
    (hv : form.validated) :
    (handleQuickCheck form false st ax tk po).effects = [Effect.navigate "/login"] ∧
      (handleQuickCheck form false st ax tk po).state.error = loginMessage ∧
      (handleQuickCheck form false st ax tk po).state.loading = false ∧
      (handleAdvancedCheck form false st ax pa).effects = [Effect.navigate "/login"] ∧
      (handleAdvancedCheck form false st ax pa).state.error = loginMessage := by
  have hc := validated_guard_false form hv
  refine ⟨?_, ?_, ?_, ?_, ?_⟩ <;> simp [handleQuickCheck, handleAdvancedCheck, hc]

/-- C7, witness: the amended theorem at the concrete validated form and a
fresh unauthenticated session. -/
theorem c7_unauthenticated_witness :
    (handleQuickCheck pizzaForm false freshState noDefaults
        TokenFetchOutcome.missingToken (PostOutcome.failed "y")).effects =
          [Effect.navigate "/login"] ∧
      (handleQuickCheck pizzaForm false freshState noDefaults
        TokenFetchOutcome.missingToken (PostOutcome.failed "y")).state.error = loginMessage ∧
      (handleQuickCheck pizzaForm false freshState noDefaults
        TokenFetchOutcome.missingToken (PostOutcome.failed "y")).state.loading = false ∧
      (handleAdvancedCheck pizzaForm false freshState noDefaults
        (PostOutcome.failed "y")).effects = [Effect.navigate "/login"] ∧
      (handleAdvancedCheck pizzaForm false freshState noDefaults
        (PostOutcome.failed "y")).state.error = loginMessage :=
  c7_unauthenticated_redirect pizzaForm freshState noDefaults
    TokenFetchOutcome.missingToken (PostOutcome.failed "y") (PostOutcome.failed "y")
    (by decide)

/-- C10: after validation both handlers clear the previous error and results
before issuing any request, so their entire outcome is independent of the
previously displayed error, results and loading flag; the loading flag ends
false on every path, and whenever the final error message is nonempty the
final results are none, so a failed submission never shows a stale result
next to its error message. -/
theorem c10_handlers_clear_state (form : FormData) (isAuth : Bool)
    (st : ComponentState) (ax : AxiosDefaults) (tk : TokenFetchOutcome)
    (po pa : PostOutcome) (hv : form.validated) :
    (handleQuickCheck form isAuth st ax tk po).state.loading = false ∧
      (handleAdvancedCheck form isAuth st ax pa).state.loading = false ∧
      ((handleQuickCheck form isAuth st ax tk po).state.error ≠ "" →
        (handleQuickCheck form isAuth st ax tk po).state.results = none) ∧
      ((handleAdvancedCheck form isAuth st ax pa).state.error ≠ "" →
        (handleAdvancedCheck form isAuth st ax pa).state.results = none) ∧
      (∀ e0 r0 l0,
        handleQuickCheck form isAuth
            { st with error := e0, results := r0, loading := l0 } ax tk po =
          handleQuickCheck form isAuth st ax tk po) ∧
      (∀ e0 r0 l0,
        handleAdvancedCheck form isAuth
            { st with error := e0, results := r0, loading := l0 } ax pa =
          handleAdvancedCheck form isAuth st ax pa) := by
  have hc := validated_guard_false form hv
  refine ⟨?_, ?_, ?_, ?_, ?_, ?_⟩ <;>
    cases isAuth <;>
    rcases hcs : st.csrfToken with _ | t <;>
    cases tk <;> cases po <;> cases pa <;>
    simp [handleQuickCheck, handleAdvancedCheck, quickCheckMainPost, hc, hcs]

/-- C10, witness: the theorem at a concrete validated submission whose
previous state held stale results and a stale error. -/
theorem c10_clear_state_witness :
    pizzaForm.validated ∧
      (handleQuickCheck pizzaForm true freshState noDefaults
        (TokenFetchOutcome.ok "tok") (PostOutcome.failed "boom")).state.loading = false ∧
      (handleAdvancedCheck pizzaForm true freshState noDefaults
        (PostOutcome.failed "boom")).state.loading = false ∧
      ((handleQuickCheck pizzaForm true freshState noDefaults
          (TokenFetchOutcome.ok "tok") (PostOutcome.failed "boom")).state.error ≠ "" →
        (handleQuickCheck pizzaForm true freshState noDefaults
          (TokenFetchOutcome.ok "tok") (PostOutcome.failed "boom")).state.results = none) ∧
      ((handleAdvancedCheck pizzaForm true freshState noDefaults
          (PostOutcome.failed "boom")).state.error ≠ "" →
        (handleAdvancedCheck pizzaForm true freshState noDefaults
          (PostOutcome.failed "boom")).state.results = none) ∧
      (∀ e0 r0 l0,
        handleQuickCheck pizzaForm true
            { freshState with error := e0, results := r0, loading := l0 } noDefaults
            (TokenFetchOutcome.ok "tok") (PostOutcome.failed "boom") =
          handleQuickCheck pizzaForm true freshState noDefaults
            (TokenFetchOutcome.ok "tok") (PostOutcome.failed "boom")) ∧
      (∀ e0 r0 l0,
        handleAdvancedCheck pizzaForm true
            { freshState with error := e0, results := r0, loading := l0 } noDefaults
            (PostOutcome.failed "boom") =
          handleAdvancedCheck pizzaForm true freshState noDefaults
            (PostOutcome.failed "boom")) :=
  ⟨by decide, c10_handlers_clear_state pizzaForm true freshState noDefaults
    (TokenFetchOutcome.ok "tok") (PostOutcome.failed "boom") (PostOutcome.failed "boom")
    (by decide)⟩

/-- C3, counterexample: a validated advanced submission in a session where
no CSRF token was ever cached sends the grid-check POST with no X-CSRFToken
header at all, refuting the clause that both variants attach the
anti-forgery header. -/
theorem c3_csrf_header_counterexample :
    (handleAdvancedCheck pizzaForm true freshState noDefaults
        (PostOutcome.ok sampleResult)).effects =
      [Effect.postGridCheck (gridCheckBody pizzaForm) (gridCheckConfig noDefaults)] ∧
      (gridCheckConfig noDefaults).xCsrfToken = none := by
  exact ⟨rfl, rfl⟩

/-- C3, amended: every ranking POST of either variant is sent with
credentials; the quick-check request always carries an X-CSRFToken header
(the handler aborts when it cannot obtain one), while the advanced request
carries exactly the axios default header, which is absent when no token was
previously cached. -/
theorem c3_credentials_and_csrf (form : FormData) (isAuth : Bool)
    (st : ComponentState) (ax : AxiosDefaults) (tk : TokenFetchOutcome)
    (po pa : PostOutcome) :
    (∀ b cfg,
      Effect.postQuickCheck b cfg ∈ (handleQuickCheck form isAuth st ax tk po).effects →
        cfg.withCredentials = true ∧ cfg.xCsrfToken.isSome = true) ∧
      (∀ b cfg,
        Effect.postGridCheck b cfg ∈ (handleAdvancedCheck form isAuth st ax pa).effects →
          cfg.withCredentials = true ∧ cfg.xCsrfToken = ax.xCsrfToken) := by
  constructor
  · intro b cfg hmem
    cases hcond : (form.businessName == "" || !form.businessLat.truthy ||
        !form.businessLng.truthy) <;>
      cases isAuth <;>
      rcases hcs : st.csrfToken with _ | t <;>
      cases tk <;> cases po <;>
      simp [handleQuickCheck, quickCheckMainPost, hcond, hcs] at hmem <;>
      obtain ⟨hb, hcfg⟩ := hmem <;>
      subst hcfg <;>
      simp [quickCheckConfig, hcs]
  · intro b cfg hmem
    cases hcond : (form.businessName == "" || !form.businessLat.truthy ||
        !form.businessLng.truthy) <;>
      cases isAuth <;> cases pa <;>
      simp [handleAdvancedCheck, hcond] at hmem <;>
      obtain ⟨hb, hcfg⟩ := hmem <;>
      subst hcfg <;>
      simp [gridCheckConfig]

/-- C3, witness: the quick-check clause of the amended theorem applied to a
concrete run whose session already cached a token. -/
theorem c3_credentials_witness :
    (quickCheckConfig (some "tok") noDefaults).withCredentials = true ∧
      (quickCheckConfig (some "tok") noDefaults).xCsrfToken.isSome = true :=
  (c3_credentials_and_csrf pizzaForm true
      { freshState with csrfToken := some "tok" } noDefaults
      TokenFetchOutcome.transportError (PostOutcome.ok sampleResult)
      (PostOutcome.ok sampleResult)).1
    (quickCheckBody pizzaForm) (quickCheckConfig (some "tok") noDefaults) (by decide)

/-- C4, counterexample: a validated advanced submission with no cached token
performs no token fetch at all and still sends the main request, refuting
the claim for submissions in general; the lazy acquisition exists only in
the quick-check handler. -/
theorem c4_no_token_fetch_counterexample :
    Effect.getCsrfToken ∉
        (handleAdvancedCheck pizzaForm true freshState noDefaults
          (PostOutcome.failed "boom")).effects ∧
      (handleAdvancedCheck pizzaForm true freshState noDefaults
          (PostOutcome.failed "boom")).effects =
        [Effect.postGridCheck (gridCheckBody pizzaForm) (gridCheckConfig noDefaults)] := by
  constructor
  · decide
  · rfl

/-- C4, amended: for a validated, authenticated quick-check submission with
no cached token, exactly one token fetch is performed and it precedes the
main request; on success the token is cached both in component state and in
the axios defaults, and on either failure mode the main request is never
sent and the inline message asking the user to refresh is shown. -/
theorem c4_quick_lazy_token (form : FormData) (st : ComponentState)
    (ax : AxiosDefaults) (tk : TokenFetchOutcome) (po : PostOutcome)
    (hv : form.validated) (hnone : st.csrfToken = none) :
    (∀ t, tk = TokenFetchOutcome.ok t →
      (handleQuickCheck form true st ax tk po).effects =
          [Effect.getCsrfToken,
            Effect.postQuickCheck (quickCheckBody form)
              (quickCheckConfig none { ax with xCsrfToken := some t })] ∧
        (handleQuickCheck form true st ax tk po).state.csrfToken = some t ∧
        (handleQuickCheck form true st ax tk po).axios.xCsrfToken = some t) ∧
      (tk = TokenFetchOutcome.missingToken ∨ tk = TokenFetchOutcome.transportError →
        (handleQuickCheck form true st ax tk po).effects = [Effect.getCsrfToken] ∧
          (handleQuickCheck form true st ax tk po).state.error = tokenFailureMessage) := by
  have hc := validated_guard_false form hv
  constructor
  · intro t ht
    subst ht
    cases po <;>
      simp [handleQuickCheck, quickCheckMainPost, hc, hnone]
  · intro ht
    rcases ht with ht | ht <;> subst ht <;> cases po <;>
      simp [handleQuickCheck, hc, hnone]

/-- C4, witness: the amended theorem at a concrete fresh session, once with
a successful token fetch and once with a failing one. -/
theorem c4_quick_lazy_token_witness :
    pizzaForm.validated ∧ freshState.csrfToken = none ∧
      ((handleQuickCheck pizzaForm true freshState noDefaults
          (TokenFetchOutcome.ok "tok") (PostOutcome.ok sampleResult)).effects =
          [Effect.getCsrfToken,
            Effect.postQuickCheck (quickCheckBody pizzaForm)
              (quickCheckConfig none { noDefaults with xCsrfToken := some "tok" })] ∧
        (handleQuickCheck pizzaForm true freshState noDefaults
          (TokenFetchOutcome.ok "tok") (PostOutcome.ok sampleResult)).state.csrfToken =
            some "tok" ∧
        (handleQuickCheck pizzaForm true freshState noDefaults
          (TokenFetchOutcome.ok "tok") (PostOutcome.ok sampleResult)).axios.xCsrfToken =
            some "tok") ∧
      ((handleQuickCheck pizzaForm true freshState noDefaults
          TokenFetchOutcome.transportError (PostOutcome.ok sampleResult)).effects =
            [Effect.getCsrfToken] ∧
        (handleQuickCheck pizzaForm true freshState noDefaults
          TokenFetchOutcome.transportError (PostOutcome.ok sampleResult)).state.error =
            tokenFailureMessage) :=
  ⟨by decide, rfl,
    (c4_quick_lazy_token pizzaForm freshState noDefaults
        (TokenFetchOutcome.ok "tok") (PostOutcome.ok sampleResult)
        (by decide) rfl).1 "tok" rfl,
    (c4_quick_lazy_token pizzaForm freshState noDefaults
        TokenFetchOutcome.transportError (PostOutcome.ok sampleResult)
        (by decide) rfl).2 (Or.inr rfl)⟩

/-- C5: handleLogout clears both storages, raises the logout-in-progress
flag and starts the 1000 ms timer; while the flag is set every auth
re-check returns without calling the check-auth endpoint and forces the
unauthenticated state; once the timer callback clears the flag, the next
auth check does call the endpoint. -/
theorem c5_logout_quiescence (st stq : AppState) (outcome : AuthCheckOutcome)
    (hq : stq.logoutInProgress = true) :
    (handleLogout st).2 =
        [Effect.postLogout, Effect.clearLocalStorage, Effect.clearSessionStorage,
          Effect.startLogoutTimer 1000] ∧
      (handleLogout st).1.logoutInProgress = true ∧
      checkAuthStatus stq outcome =
        ({ stq with isAuthenticated := false, user := none, loading := false }, []) ∧
      (logoutTimerFires stq).logoutInProgress = false ∧
      Effect.getCheckAuth ∈ (checkAuthStatus (logoutTimerFires stq) outcome).2 := by
  refine ⟨rfl, rfl, ?_, rfl, ?_⟩
  · simp [checkAuthStatus, hq]
  · cases outcome <;> simp [checkAuthStatus, logoutTimerFires]

/-- An authenticated App state before logout. -/
def loggedInApp : AppState :=
  { isAuthenticated := true, user := some "user@example.com", loading := false
    logoutInProgress := false }

/-- The App state during the logout quiescence window. -/
def quiescentApp : AppState :=
  { isAuthenticated := false, user := none, loading := false
    logoutInProgress := true }

/-- C5, witness: the theorem at a concrete logged-in state and a concrete
quiescent state. -/
theorem c5_logout_quiescence_witness :
    quiescentApp.logoutInProgress = true ∧
      ((handleLogout loggedInApp).2 =
          [Effect.postLogout, Effect.clearLocalStorage, Effect.clearSessionStorage,
            Effect.startLogoutTimer 1000] ∧
        (handleLogout loggedInApp).1.logoutInProgress = true ∧
        checkAuthStatus quiescentApp AuthCheckOutcome.unauthenticated =
          ({ quiescentApp with isAuthenticated := false, user := none, loading := false },
            []) ∧
        (logoutTimerFires quiescentApp).logoutInProgress = false ∧
        Effect.getCheckAuth ∈
          (checkAuthStatus (logoutTimerFires quiescentApp)
            AuthCheckOutcome.unauthenticated).2) :=
  ⟨rfl, c5_logout_quiescence loggedInApp quiescentApp
    AuthCheckOutcome.unauthenticated rfl⟩

/-- C6, counterexample: with an authenticated user, changing the business
name from Pizza Place to the empty string is a name change after which no
history request is issued, refuting re-issued on every change. -/
theorem c6_empty_name_counterexample :
    historyEffectsAfterRender true "Pizza Place" true "" = [] ∧
      ("Pizza Place" : String) ≠ "" := by
  constructor
  · rfl
  · decide

/-- C6, amended: the history fetch is re-issued whenever the business name
changes to a nonempty value while authenticated, and is skipped entirely,
with no request to the history endpoint, whenever the user is not
authenticated; a change to the empty name is also skipped. -/
theorem c6_history_refetch (prevName curName : String)
    (hchange : prevName ≠ curName) (hcur : curName ≠ "") :
    historyEffectsAfterRender true prevName true curName =
        [Effect.getHistory (some curName)] ∧
      (∀ (pa : Bool) (pn cn : String), historyEffectsAfterRender pa pn false cn = []) := by
  constructor
  · simp [historyEffectsAfterRender, fetchHistoryByName, hchange, hcur]
  · intro pa pn cn
    simp [historyEffectsAfterRender, fetchHistory, fetchHistoryByName]

/-- C6, witness: the amended theorem at the concrete change from the empty
initial name to Pizza Place. -/
theorem c6_history_refetch_witness :
    ("" : String) ≠ "Pizza Place" ∧ ("Pizza Place" : String) ≠ "" ∧
      (historyEffectsAfterRender true "" true "Pizza Place" =
          [Effect.getHistory (some "Pizza Place")] ∧
        (∀ (pa : Bool) (pn cn : String), historyEffectsAfterRender pa pn false cn = [])) :=
  ⟨by decide, by decide,
    c6_history_refetch "" "Pizza Place" (by decide) (by decide)⟩

/-- C8: a validated, authenticated quick-check submission with a token
available (already cached, or obtained by the lazy fetch) issues exactly one
POST to the quick-check endpoint; its body is exactly quickCheckBody form,
whose only fields are the business name, the parseFloat of both coordinates,
and target_domain, the latter present exactly when the field is non-blank
and omitted from the serialized body when blank. -/
theorem c8_quick_post_body (form : FormData) (st : ComponentState)
    (ax : AxiosDefaults) (tk : TokenFetchOutcome) (po : PostOutcome)
    (hv : form.validated)
    (htok : st.csrfToken ≠ none ∨ ∃ t, tk = TokenFetchOutcome.ok t) :
    ((handleQuickCheck form true st ax tk po).effects.countP
        (fun e => e.isQuickPost) = 1) ∧
      (∀ b cfg,
        Effect.postQuickCheck b cfg ∈ (handleQuickCheck form true st ax tk po).effects →
          b = quickCheckBody form) ∧
      (quickCheckBody form).business_name = form.businessName ∧
      (quickCheckBody form).business_lat = jsParseFloat form.businessLat ∧
      (quickCheckBody form).business_lng = jsParseFloat form.businessLng ∧
      (form.targetDomain = "" → (quickCheckBody form).target_domain = none) ∧
      (form.targetDomain ≠ "" →
        (quickCheckBody form).target_domain = some form.targetDomain) := by
  have hc := validated_guard_false form hv
  refine ⟨?_, ?_, rfl, rfl, rfl, ?_, ?_⟩
  · rcases hcs : st.csrfToken with _ | t0
    · rcases htok with htok | ⟨t, ht⟩
      · exact absurd hcs htok
      · subst ht
        cases po <;>
          simp [handleQuickCheck, quickCheckMainPost, hc, hcs, Effect.isQuickPost]
    · cases tk <;> cases po <;>
        simp [handleQuickCheck, quickCheckMainPost, hc, hcs, Effect.isQuickPost]
  · intro b cfg hmem
    rcases hcs : st.csrfToken with _ | t0 <;>
      cases tk <;> cases po <;>
      simp [handleQuickCheck, quickCheckMainPost, hc, hcs] at hmem <;>
      exact hmem.1
  · intro h
    simp [quickCheckBody, stringOrUndefined, h]
  · intro h
    simp [quickCheckBody, stringOrUndefined, h]

/-- C8, witness: the theorem at the concrete form with a blank target
domain and an already-cached token. -/
theorem c8_quick_post_body_witness :
    pizzaForm.validated ∧
      (((handleQuickCheck pizzaForm true { freshState with csrfToken := some "tok" }
          noDefaults TokenFetchOutcome.transportError
          (PostOutcome.ok sampleResult)).effects.countP (fun e => e.isQuickPost) = 1) ∧
        (∀ b cfg,
          Effect.postQuickCheck b cfg ∈
              (handleQuickCheck pizzaForm true { freshState with csrfToken := some "tok" }
                noDefaults TokenFetchOutcome.transportError
                (PostOutcome.ok sampleResult)).effects →
            b = quickCheckBody pizzaForm) ∧
        (quickCheckBody pizzaForm).business_name = pizzaForm.businessName ∧
        (quickCheckBody pizzaForm).business_lat = jsParseFloat pizzaForm.businessLat ∧
        (quickCheckBody pizzaForm).business_lng = jsParseFloat pizzaForm.businessLng ∧
        (pizzaForm.targetDomain = "" → (quickCheckBody pizzaForm).target_domain = none) ∧
        (pizzaForm.targetDomain ≠ "" →
          (quickCheckBody pizzaForm).target_domain = some pizzaForm.targetDomain)) :=
  ⟨by decide,
    c8_quick_post_body pizzaForm { freshState with csrfToken := some "tok" } noDefaults
      TokenFetchOutcome.transportError (PostOutcome.ok sampleResult)
      (by decide) (Or.inl (by decide))⟩

end RankingFrontend
